import Mathlib

/-!
Verification development for the camera-color-frames server (`server.py`).

The Python source is shallowly embedded below.  Conventions:

* Python floats are modelled as exact rationals (`ℚ`); `int(x)` is Python's
  truncation toward zero (`pyInt`).
* Python `//` on integers is floor division (`Int.fdiv`).
* External services (`json.loads`, `base64`, `cv2.imdecode`, `cv2.imencode`,
  frame/ndarray conversion) are treated as provided black boxes: fallible ones
  become `Option`-valued parameters or constructors carrying their result.
* OpenCV drawing primitives (`cv2.rectangle`, `cv2.circle` with negative
  thickness) fill their shape *clipped to the image rectangle*: they never
  touch memory outside the buffer, which the embedding reflects by
  intersecting the fill region with the image bounds.  `cv2.rectangle`
  fills all pixels between its two corner points, both corners included,
  after normalising the corner order.
* A Python expression that raises an exception is modelled as `Option`/`Except`
  failure at the corresponding point.
-/

/-- A JSON value as produced by `json.loads` (numbers restricted to the
integers, which is all the protocol traffic uses). -/
inductive JVal where
  | jnull : JVal
  | jbool : Bool → JVal
  | jnum : Int → JVal
  | jstr : String → JVal
  | jarr : List JVal → JVal
  | jobj : List (String × JVal) → JVal

/-- Python subscript `v[k]` on a parsed JSON value: succeeds only on an
object that has the key; a missing key (`KeyError`) or non-object
(`TypeError`) is an exception, modelled as `none`. -/
def JVal.getKey : JVal → String → Option JVal
  | .jobj fields, k => fields.lookup k
  | _, _ => none

/-- Python `int(q)` for a float value `q`: truncation toward zero.
`Rat` is normalised with positive denominator, so T-division of the
numerator by the denominator is exactly truncation. -/
def pyInt (q : ℚ) : Int :=
  q.num / (q.den : Int)

/-- Python `a // b` for integers: floor division. -/
def pyFloorDiv (a b : Int) : Int :=
  Int.fdiv a b

/-- A BGR pixel: the raw buffer is `bgr24`, so a pixel is an ordered
triple of channel values in B,G,R order. -/
abbrev Pixel := Int × Int × Int

/-- A raw pixel buffer (`np.ndarray` of shape `height × width × 3`):
dimensions plus the pixel at each coordinate.  `pix x y` is only
meaningful for `x < width` and `y < height`; the drawers below never
change it elsewhere. -/
structure Image where
  width : Nat
  height : Nat
  pix : Nat → Nat → Pixel

/-- Predicate: `(x, y)` is a coordinate of an actual pixel of `img`. -/
def Image.inBounds (img : Image) (x y : Nat) : Prop :=
  x < img.width ∧ y < img.height

instance (img : Image) (x y : Nat) : Decidable (img.inBounds x y) :=
  inferInstanceAs (Decidable (x < img.width ∧ y < img.height))

/-- Model of `cv2.rectangle(img, (x1, y1), (x2, y2), color, -1)`: fill every pixel
whose coordinates lie between the two corners (inclusive on both sides,
corner order normalised), clipped to the image rectangle. -/
def cvRectangle (img : Image) (x1 y1 x2 y2 : Int) (color : Pixel) : Image :=
  { img with
    pix := fun px py =>
      if img.inBounds px py ∧
          min x1 x2 ≤ (px : Int) ∧ (px : Int) ≤ max x1 x2 ∧
          min y1 y2 ≤ (py : Int) ∧ (py : Int) ≤ max y1 y2 then
        color
      else
        img.pix px py }

/-- Model of `cv2.circle(img, (cx, cy), r, color, -1)`: fill the disc of radius `r`
about the centre, clipped to the image rectangle.  (OpenCV's rasterisation
of the disc boundary is approximate; the ideal disc is used here.  Every
claim below that involves the circle only needs that the fill stays inside
the disc's bounding box, which holds for the real rasteriser as well.) -/
def cvCircle (img : Image) (cx cy : Int) (r : Int) (color : Pixel) : Image :=
  { img with
    pix := fun px py =>
      if img.inBounds px py ∧
          ((px : Int) - cx) ^ 2 + ((py : Int) - cy) ^ 2 ≤ r ^ 2 then
        color
      else
        img.pix px py }

/-- Model of `AppConfig.__init__`: stores both fields; performs no validation at
all (any shape string and any size factor are accepted). -/
structure AppConfig where
  shape_type : String
  size_factor : ℚ

/-- Constructing an `AppConfig` exactly as `AppConfig(shape_type, size_factor)`
does: the constructor body only assigns the attributes. -/
def mkAppConfig (shape_type : String) (size_factor : ℚ) : AppConfig :=
  { shape_type := shape_type, size_factor := size_factor }

/-- The closed set of shape drawers (`RectangleDrawer` / `CircleDrawer`). -/
inductive ShapeDrawer where
  | rectangle : ShapeDrawer
  | circle : ShapeDrawer
deriving DecidableEq, Repr

/-- Model of `RectangleDrawer.draw(img, color, size_factor=...)`. -/
def rectangleDraw (img : Image) (color : Pixel) (size_factor : ℚ) : Image :=
  let rect_width : Int := pyInt ((img.width : ℚ) * size_factor)
  let rect_height : Int := pyInt ((img.height : ℚ) * size_factor)
  let x : Int := pyFloorDiv ((img.width : Int) - rect_width) 2
  let y : Int := pyFloorDiv ((img.height : Int) - rect_height) 2
  cvRectangle img x y (x + rect_width) (y + rect_height) color

/-- Model of `CircleDrawer.draw(img, color, size_factor=...)`. -/
def circleDraw (img : Image) (color : Pixel) (size_factor : ℚ) : Image :=
  let radius : Int := pyInt ((min img.width img.height : ℚ) * size_factor / 2)
  let center_x : Int := pyFloorDiv (img.width : Int) 2
  let center_y : Int := pyFloorDiv (img.height : Int) 2
  cvCircle img center_x center_y radius color

/-- Dispatch of `drawer.draw` on the concrete drawer class. -/
def ShapeDrawer.draw (d : ShapeDrawer) (img : Image) (color : Pixel)
    (size_factor : ℚ) : Image :=
  match d with
  | .rectangle => rectangleDraw img color size_factor
  | .circle => circleDraw img color size_factor

/-- Model of `ShapeDrawerFactory.create_drawer`: returns the drawer for a known
shape string, raises `ValueError` (modelled as `none`) otherwise. -/
def createDrawer (shape_type : String) : Option ShapeDrawer :=
  if shape_type = "rectangle" then some .rectangle
  else if shape_type = "circle" then some .circle
  else none

/-- A video frame: the decoded pixel buffer (`frame.to_ndarray(format="bgr24")`)
plus the timing metadata carried by the `av.VideoFrame`. -/
structure Frame where
  img : Image
  pts : Int
  time_base : ℚ

/-- The state of a `VideoTransformTrack`: the drawer selected from the
config, the shared config, and the mutable `self.color` tuple.  The color
components are the raw values taken from the parsed JSON control message
(`set_color` performs no type validation), so they are `JVal`s. -/
structure VideoTransformTrack where
  drawer : ShapeDrawer
  config : AppConfig
  color : JVal × JVal × JVal

/-- Model of `VideoTransformTrack.__init__`: selects the drawer via the factory
(raising `ValueError`, modelled as `none`, on an unknown shape string) and
initialises `self.color = (0, 0, 0)`. -/
def VideoTransformTrack.init (config : AppConfig) : Option VideoTransformTrack :=
  (createDrawer config.shape_type).map fun d =>
    { drawer := d, config := config, color := (.jnum 0, .jnum 0, .jnum 0) }

/-- Model of `VideoTransformTrack.set_color`: `self.color = (color["b"], color["g"],
color["r"])`.  All three subscripts are evaluated before the assignment, so
a `KeyError`/`TypeError` on any of them (modelled as `none`) leaves
`self.color` untouched. -/
def VideoTransformTrack.setColor (t : VideoTransformTrack) (color : JVal) :
    Option VideoTransformTrack :=
  match color.getKey "b", color.getKey "g", color.getKey "r" with
  | some b, some g, some r => some { t with color := (b, g, r) }
  | _, _, _ => none

/-- Conversion of one stored color component to an OpenCV scalar: numbers
(and bools, which are an int subclass in Python) convert; any other value
makes the drawing call raise a `TypeError`. -/
def cvScalarComponent : JVal → Option Int
  | .jnum n => some n
  | .jbool b => some (if b then 1 else 0)
  | _ => none

/-- Conversion of the stored `self.color` tuple to an OpenCV color. -/
def cvColor : JVal × JVal × JVal → Option Pixel
  | (b, g, r) => do
    let b ← cvScalarComponent b
    let g ← cvScalarComponent g
    let r ← cvScalarComponent r
    pure (b, g, r)

/-- Model of `VideoTransformTrack.recv`, as a function of the next inbound frame:
convert to an ndarray, draw with the current color snapshot, rebuild a
frame and copy `pts` and `time_base` over from the input frame.  The
drawing call raises (`Except.error`) if the stored color is not a valid
scalar tuple. -/
def VideoTransformTrack.recv (t : VideoTransformTrack) (frame : Frame) :
    Except String Frame :=
  match cvColor t.color with
  | none => .error "TypeError: bad color scalar"
  | some c =>
      .ok { img := t.drawer.draw frame.img c t.config.size_factor
            pts := frame.pts
            time_base := frame.time_base }

/-- A message arriving on the session's data channel: either binary (the
`isinstance(message, str)` guard skips it) or text, carried here together
with the result of `json.loads` on it (`none` when parsing raises). -/
inductive DCMessage where
  | binary : DCMessage
  | text : Option JVal → DCMessage

/-- The `on_message` data-channel handler from `offer`: acts on the
`nonlocal video_transform_track` slot (`none` while no video track has
arrived).  Any exception inside the `try` (JSON parse failure, or a
failing subscript inside `set_color`) is caught and logged, leaving the
track unchanged. -/
def onMessage (msg : DCMessage) (vtt : Option VideoTransformTrack) :
    Option VideoTransformTrack :=
  match msg with
  | .binary => vtt
  | .text parsed =>
    match parsed with
    | none => vtt
    | some color =>
      match vtt with
      | none => none
      | some t =>
        match t.setColor color with
        | none => some t
        | some t' => some t'

/-- The external codec services used by `FrameProcessor.process_frame`:
base64 decoding (raises on invalid input), `cv2.imdecode` (returns `None`
on undecodable bytes), `cv2.imencode(".jpg", ...)` and base64 encoding
(both total). -/
structure Codec where
  b64decode : String → Option (List Nat)
  imdecode : List Nat → Option Image
  imencode : Image → List Nat
  b64encode : List Nat → String

/-- Model of `frame_data["data"].split(",")[1] if "," in frame_data["data"]
else frame_data["data"]`: when the string contains a comma, the segment
strictly between the first comma and the following comma (or the end of
the string); otherwise the string itself.  Implemented over the character
list, which is exactly what Python's `split` yields at index 1. -/
def pyCommaSplit (s : String) : String :=
  if s.data.contains ',' then
    String.mk (((s.data.dropWhile fun c => c ≠ ',').drop 1).takeWhile
      fun c => c ≠ ',')
  else s

/-- Model of `FrameProcessor.process_frame`.  Exceptions escape to the caller
(`Except.error`) after being logged; the error strings stand for the
corresponding Python exception messages. -/
def process_frame (codec : Codec) (drawer : ShapeDrawer) (config : AppConfig)
    (frame_data : JVal) : Except String JVal :=
  match frame_data.getKey "data" with
  | none => .error "KeyError: data"
  | some dv =>
    match dv with
    | .jstr s =>
      match frame_data.getKey "avgColor" with
      | none => .error "KeyError: avgColor"
      | some avg_color =>
        match codec.b64decode (pyCommaSplit s) with
        | none => .error "binascii.Error: invalid base64"
        | some img_data =>
          match codec.imdecode img_data with
          | none => .error "Failed to decode image"
          | some img =>
            match avg_color.getKey "b", avg_color.getKey "g", avg_color.getKey "r" with
            | some b, some g, some r =>
              match cvColor (b, g, r) with
              | none => .error "TypeError: bad color scalar"
              | some color =>
                .ok (.jobj
                  [("data", .jstr ("data:image/jpeg;base64," ++
                      codec.b64encode (codec.imencode
                        (drawer.draw img color config.size_factor)))),
                   ("avgColor", avg_color)])
            | _, _, _ => .error "KeyError: color channel"
    | _ => .error "TypeError: data is not a string"

/-- Model of `message["type"] == "frame"`: Python `==` between a non-string and
`"frame"` is simply `False`. -/
def isFrameType : JVal → Bool
  | .jstr s => s == "frame"
  | _ => false

/-- A message sent back on the websocket. -/
inductive WSOut where
  | processed : JVal → WSOut
  | errorMsg : String → WSOut

/-- Model of `websocket_endpoint`, as a function of the sequence of inbound text
messages (each given with its `json.loads` result; `none` when parsing
raises).  The single `try` wraps the whole `while True` loop: the first
exception anywhere in the loop body jumps to the handler, which sends one
`"error"` message and then falls off the end of the endpoint.  The end of
the input list is the peer disconnecting: `receive_text` raises, the
handler's own `send_text` then fails and is swallowed by the bare
`except`. -/
def websocket_endpoint (codec : Codec) (drawer : ShapeDrawer)
    (config : AppConfig) : List (Option JVal) → List WSOut
  | [] => []
  | msg :: rest =>
    match msg with
    | none => [.errorMsg "json.loads: invalid JSON"]
    | some m =>
      match m.getKey "type" with
      | none => [.errorMsg "KeyError: type"]
      | some t =>
        if isFrameType t then
          match m.getKey "payload" with
          | none => [.errorMsg "KeyError: payload"]
          | some p =>
            match process_frame codec drawer config p with
            | .ok out => .processed out :: websocket_endpoint codec drawer config rest
            | .error e => [.errorMsg e]
        else websocket_endpoint codec drawer config rest

/-- The negotiated answer (`pc.localDescription`). -/
structure Answer where
  sdp : String
  type : String

/-- The `offer` endpoint's effect on the module-level `pcs` registry.
`newPc` is the identity of the freshly constructed `RTCPeerConnection`;
`negotiated` is the outcome of the external negotiation calls
(`setRemoteDescription` / `createAnswer` / `setLocalDescription`), with
`none` meaning they raise.  The handler adds the connection to `pcs`
before negotiating and has no handler for a negotiation failure: the
exception propagates with the registry still holding the new
connection. -/
def offer (pcs : Finset Nat) (newPc : Nat) (negotiated : Option Answer) :
    Except Unit Answer × Finset Nat :=
  let pcs2 := insert newPc pcs
  match negotiated with
  | none => (.error (), pcs2)
  | some ans => (.ok ans, pcs2)

/-- A 100×100 all-black `bgr24` buffer. -/
def blackBuffer : Image :=
  { width := 100, height := 100, pix := fun _ _ => (0, 0, 0) }

/-- The module-level `app_config = AppConfig(shape_type="circle")` (the
`size_factor` argument is left at its default `0.3`). -/
def app_config : AppConfig := mkAppConfig "circle" (3 / 10)

/-- A control message carrying a well-formed color object
`{"r": r, "g": g, "b": b}`. -/
def colorMsg (r g b : Int) : JVal :=
  .jobj [("r", .jnum r), ("g", .jnum g), ("b", .jnum b)]

/-- A control-message payload whose `b`/`g`/`r` fields are present but hold
strings instead of channel integers. -/
def badColorMsg : JVal :=
  .jobj [("b", .jstr "x"), ("g", .jstr "y"), ("r", .jstr "z")]

/-- The transform track created for `app_config`, in its initial state. -/
def sampleTrack : VideoTransformTrack :=
  { drawer := .circle, config := app_config,
    color := (.jnum 0, .jnum 0, .jnum 0) }

/-- The track after its color was poisoned by `badColorMsg`. -/
def poisonedTrack : VideoTransformTrack :=
  { sampleTrack with color := (.jstr "x", .jstr "y", .jstr "z") }

/-- An arbitrary concrete inbound frame. -/
def dummyFrame : Frame :=
  { img := blackBuffer, pts := 7, time_base := 1 / 30 }

/-- The output frame `sampleTrack.recv` produces for `dummyFrame`. -/
def sampleOut : Frame :=
  { img := sampleTrack.drawer.draw dummyFrame.img (0, 0, 0)
      sampleTrack.config.size_factor,
    pts := 7, time_base := 1 / 30 }

/-- A concrete instantiation of the external codec services: base64
decoding always succeeds (empty string ↦ no bytes), and `cv2.imdecode`
fails exactly on an empty byte buffer (an empty payload is undecodable). -/
def testCodec : Codec :=
  { b64decode := fun s => some (if s = "" then [] else [1])
    imdecode := fun bs => if bs = [] then none else some blackBuffer
    imencode := fun _ => []
    b64encode := fun _ => "enc" }

/-- A frame payload whose image data is empty (fails to decode under
`testCodec`). -/
def emptyFramePayload : JVal :=
  .jobj [("data", .jstr ""), ("avgColor", colorMsg 1 2 3)]

/-- A frame payload that decodes fine under `testCodec`. -/
def goodFramePayload : JVal :=
  .jobj [("data", .jstr "x"), ("avgColor", colorMsg 1 2 3)]

/-- A `"frame"`-typed websocket message with the given payload. -/
def frameMsg (payload : JVal) : JVal :=
  .jobj [("type", .jstr "frame"), ("payload", payload)]

/-- The 100×100 black buffer after `RectangleDrawer.draw` with color
`(10, 20, 30)` and `size_factor = 0.3`. -/
def c3Image : Image := rectangleDraw blackBuffer (10, 20, 30) (3 / 10)

/-- Helper: a pixel changed by `cvRectangle` lies inside the buffer. -/
theorem cvRectangle_changed_in_bounds {img : Image} {x1 y1 x2 y2 : Int}
    {c : Pixel} {px py : Nat}
    (h : (cvRectangle img x1 y1 x2 y2 c).pix px py ≠ img.pix px py) :
    px < img.width ∧ py < img.height := by
  by_cases hc : img.inBounds px py ∧
      min x1 x2 ≤ (px : Int) ∧ (px : Int) ≤ max x1 x2 ∧
      min y1 y2 ≤ (py : Int) ∧ (py : Int) ≤ max y1 y2
  · exact hc.1
  · simp only [cvRectangle] at h
    rw [if_neg hc] at h
    exact absurd rfl h

/-- Helper: a pixel changed by `cvCircle` lies inside the buffer. -/
theorem cvCircle_changed_in_bounds {img : Image} {cx cy r : Int}
    {c : Pixel} {px py : Nat}
    (h : (cvCircle img cx cy r c).pix px py ≠ img.pix px py) :
    px < img.width ∧ py < img.height := by
  by_cases hc : img.inBounds px py ∧
      ((px : Int) - cx) ^ 2 + ((py : Int) - cy) ^ 2 ≤ r ^ 2
  · exact hc.1
  · simp only [cvCircle] at h
    rw [if_neg hc] at h
    exact absurd rfl h

/-- C5: for every sizeFraction in (0,1] and every buffer of dimensions at
least 1×1, drawing either shape variant keeps the buffer's dimensions and
changes only pixels whose coordinates are inside the buffer bounds; the
operation is a total function over all such inputs. -/
theorem draw_stays_in_bounds (d : ShapeDrawer) (img : Image) (c : Pixel)
    (f : ℚ) (_hf0 : 0 < f) (_hf1 : f ≤ 1)
    (_hw : 1 ≤ img.width) (_hh : 1 ≤ img.height) :
    (d.draw img c f).width = img.width ∧
    (d.draw img c f).height = img.height ∧
    ∀ px py : Nat, (d.draw img c f).pix px py ≠ img.pix px py →
      px < img.width ∧ py < img.height := by
  cases d
  · exact ⟨rfl, rfl, fun px py h => cvRectangle_changed_in_bounds h⟩
  · exact ⟨rfl, rfl, fun px py h => cvCircle_changed_in_bounds h⟩

/-- Witness for C5 at sizeFraction 1/2 on the concrete 100×100 buffer. -/
theorem draw_stays_in_bounds_witness :
    (0 : ℚ) < 1 / 2 ∧ (1 / 2 : ℚ) ≤ 1 ∧
    1 ≤ blackBuffer.width ∧ 1 ≤ blackBuffer.height ∧
    ((ShapeDrawer.circle.draw blackBuffer (1, 2, 3) (1 / 2)).width =
        blackBuffer.width ∧
      (ShapeDrawer.circle.draw blackBuffer (1, 2, 3) (1 / 2)).height =
        blackBuffer.height ∧
      ∀ px py : Nat,
        (ShapeDrawer.circle.draw blackBuffer (1, 2, 3) (1 / 2)).pix px py ≠
          blackBuffer.pix px py →
        px < blackBuffer.width ∧ py < blackBuffer.height) :=
  ⟨by norm_num, by norm_num, by decide, by decide,
    draw_stays_in_bounds .circle blackBuffer (1, 2, 3) (1 / 2)
      (by norm_num) (by norm_num) (by decide) (by decide)⟩

/-- C2 counterexample: a negotiation failure on a fresh registry leaves the
new connection registered — the claim that it is removed before the
failure surfaces is false. -/
theorem offer_failure_keeps_pc_counterexample :
    (offer ∅ 7 none).1 = .error () ∧ 7 ∈ (offer ∅ 7 none).2 := by
  refine ⟨rfl, ?_⟩
  simp [offer]

/-- C2 (amended): `offer` registers the connection before negotiating; when
negotiation fails the exception propagates with no cleanup, so the
connection is still in the registry (it is removed only later, by the
connection-state-change handler or process shutdown). -/
theorem offer_failure_keeps_registration (pcs : Finset Nat) (newPc : Nat) :
    (offer pcs newPc none).1 = .error () ∧
    (offer pcs newPc none).2 = insert newPc pcs ∧
    newPc ∈ (offer pcs newPc none).2 := by
  refine ⟨rfl, rfl, ?_⟩
  simp [offer]

/-- C4 counterexample: `AppConfig` happily accepts `size_factor = 2`,
which violates the (0,1] invariant, and the value flows on into a
constructed transform track — nothing rejects it at construction time. -/
theorem appconfig_accepts_invalid_counterexample :
    (mkAppConfig "rectangle" 2).size_factor = 2 ∧
    ¬ (0 < (mkAppConfig "rectangle" 2).size_factor ∧
        (mkAppConfig "rectangle" 2).size_factor ≤ 1) ∧
    (VideoTransformTrack.init (mkAppConfig "rectangle" 2)).isSome = true := by
  refine ⟨rfl, ?_, rfl⟩
  norm_num [mkAppConfig]

/-- C4 (amended): the `AppConfig` constructor performs no validation: any
sizeFraction value, in particular one outside (0,1], is accepted and
stored unchanged, and a config holding it is accepted when a transform
track is built from it. -/
theorem appconfig_no_validation (s : String) (f : ℚ) :
    (mkAppConfig s f).shape_type = s ∧
    (mkAppConfig s f).size_factor = f ∧
    (VideoTransformTrack.init (mkAppConfig "rectangle" f)).isSome = true ∧
    (VideoTransformTrack.init (mkAppConfig "circle" f)).isSome = true :=
  ⟨rfl, rfl, rfl, rfl⟩

/-- C6: two consecutive color updates through `set_color` replace the
stored color wholesale; the state after both equals the state reached by
the second update alone, and the next `recv` draws with exactly the last
update's three channels (in BGR order), with no channel of the first
update surviving. -/
theorem last_color_update_wins (t : VideoTransformTrack)
    (r1 g1 b1 r2 g2 b2 : Int) :
    (t.setColor (colorMsg r1 g1 b1)).bind
        (fun s => s.setColor (colorMsg r2 g2 b2)) =
      some { t with color := (.jnum b2, .jnum g2, .jnum r2) } ∧
    (t.setColor (colorMsg r1 g1 b1)).bind
        (fun s => s.setColor (colorMsg r2 g2 b2)) =
      t.setColor (colorMsg r2 g2 b2) ∧
    ∀ f : Frame,
      ({ t with color := (.jnum b2, .jnum g2, .jnum r2) } :
          VideoTransformTrack).recv f =
        .ok { img := t.drawer.draw f.img (b2, g2, r2) t.config.size_factor,
              pts := f.pts, time_base := f.time_base } :=
  ⟨rfl, rfl, fun _ => rfl⟩

/-- C9: whenever the transform loop's `recv` succeeds, the produced frame
carries the inbound frame's `pts` and `time_base` verbatim. -/
theorem recv_preserves_timing (t : VideoTransformTrack) (f out : Frame)
    (h : t.recv f = .ok out) :
    out.pts = f.pts ∧ out.time_base = f.time_base := by
  unfold VideoTransformTrack.recv at h
  split at h
  · exact Except.noConfusion h
  · injection h with h
    subst h
    exact ⟨rfl, rfl⟩

/-- Witness for C9 on a concrete track and frame. -/
theorem recv_preserves_timing_witness :
    sampleTrack.recv dummyFrame = .ok sampleOut ∧
    (sampleOut.pts = dummyFrame.pts ∧
      sampleOut.time_base = dummyFrame.time_base) :=
  ⟨rfl, recv_preserves_timing sampleTrack dummyFrame sampleOut rfl⟩

/-- C10: a freshly constructed `VideoTransformTrack` has its overlay
color initialised to black `(0, 0, 0)`, and every frame it transforms in
that state is overlaid with black. -/
theorem new_track_overlays_black (config : AppConfig)
    (t : VideoTransformTrack) (h : VideoTransformTrack.init config = some t) :
    t.color = (.jnum 0, .jnum 0, .jnum 0) ∧
    ∀ f : Frame, t.recv f =
      .ok { img := t.drawer.draw f.img (0, 0, 0) config.size_factor,
            pts := f.pts, time_base := f.time_base } := by
  unfold VideoTransformTrack.init at h
  cases hc : createDrawer config.shape_type with
  | none => rw [hc] at h; exact Option.noConfusion h
  | some d =>
    rw [hc] at h
    injection h with h
    subst h
    exact ⟨rfl, fun _ => rfl⟩

/-- Witness for C10: the track built from the deployed `app_config`. -/
theorem new_track_overlays_black_witness :
    VideoTransformTrack.init app_config = some sampleTrack ∧
    (sampleTrack.color = (.jnum 0, .jnum 0, .jnum 0) ∧
      ∀ f : Frame, sampleTrack.recv f =
        .ok { img := sampleTrack.drawer.draw f.img (0, 0, 0)
                app_config.size_factor,
              pts := f.pts, time_base := f.time_base }) :=
  ⟨rfl, new_track_overlays_black app_config sampleTrack rfl⟩

/-- C7 counterexample: a control message whose `b`/`g`/`r` fields are
present but hold strings — not a valid color — is accepted by the
handler: it *does* change `currentColor`, and the next frame pull then
fails instead of being transformed as if the message had never arrived. -/
theorem invalid_color_fields_accepted_counterexample :
    onMessage (.text (some badColorMsg)) (some sampleTrack) =
      some poisonedTrack ∧
    poisonedTrack.color ≠ sampleTrack.color ∧
    poisonedTrack.recv dummyFrame = .error "TypeError: bad color scalar" := by
  refine ⟨rfl, ?_, rfl⟩
  intro h
  exact JVal.noConfusion (congrArg Prod.fst h)

/-- C7 (amended): a control message that is non-text, is not valid JSON,
or whose parsed payload lacks one of the `b`/`g`/`r` subscripts leaves the
track — hence `currentColor` — unchanged without crashing, and the next
frame is transformed exactly as if the message had never arrived.  (A
message whose three fields are present but hold non-integer values is
*not* covered: no value validation occurs, so it replaces the color.) -/
theorem malformed_control_message_dropped (t : VideoTransformTrack)
    (msg : DCMessage)
    (h : msg = .binary ∨ msg = .text none ∨
        ∃ v, msg = .text (some v) ∧ t.setColor v = none) :
    onMessage msg (some t) = some t ∧
    ∀ f : Frame,
      (onMessage msg (some t)).map (fun s => s.recv f) = some (t.recv f) := by
  have hstep : onMessage msg (some t) = some t := by
    rcases h with h | h | ⟨v, hv, hset⟩
    · subst h; rfl
    · subst h; rfl
    · subst hv
      simp only [onMessage, hset]
  exact ⟨hstep, fun f => by rw [hstep]; rfl⟩

/-- Witness for C7 (amended) on a message that fails JSON parsing. -/
theorem malformed_control_message_dropped_witness :
    (DCMessage.text none = DCMessage.binary ∨
      DCMessage.text none = DCMessage.text none ∨
      ∃ v, DCMessage.text none = DCMessage.text (some v) ∧
        sampleTrack.setColor v = none) ∧
    (onMessage (.text none) (some sampleTrack) = some sampleTrack ∧
      ∀ f : Frame,
        (onMessage (.text none) (some sampleTrack)).map
            (fun s => s.recv f) = some (sampleTrack.recv f)) :=
  ⟨Or.inr (Or.inl rfl),
    malformed_control_message_dropped sampleTrack (.text none)
      (Or.inr (Or.inl rfl))⟩

/-- C1 counterexample: on one websocket connection, a frame message with
an undecodable (empty) payload followed by a perfectly processable frame
message yields only the error reply — the receive loop has ended, and the
second message is never processed, although `process_frame` would have
succeeded on it. -/
theorem ws_loop_dies_after_error_counterexample :
    websocket_endpoint testCodec .circle app_config
        [some (frameMsg emptyFramePayload), some (frameMsg goodFramePayload)] =
      [.errorMsg "Failed to decode image"] ∧
    (process_frame testCodec .circle app_config goodFramePayload).isOk = true :=
  ⟨rfl, rfl⟩

/-- C1 (amended): when processing of a frame message fails, the failure is
reported back as an error-typed message on the same connection, but the
receive loop then terminates: no subsequent message on that connection is
processed, whatever follows. -/
theorem ws_error_reported_then_loop_ends (codec : Codec)
    (drawer : ShapeDrawer) (config : AppConfig) (m t p : JVal)
    (rest : List (Option JVal)) (e : String)
    (htype : m.getKey "type" = some t)
    (hframe : isFrameType t = true)
    (hpayload : m.getKey "payload" = some p)
    (herr : process_frame codec drawer config p = .error e) :
    websocket_endpoint codec drawer config (some m :: rest) =
      [.errorMsg e] := by
  simp only [websocket_endpoint, htype, hframe, hpayload, herr, if_true]

/-- Witness for C1 (amended) on the concrete failing frame message. -/
theorem ws_error_reported_then_loop_ends_witness :
    (frameMsg emptyFramePayload).getKey "type" = some (.jstr "frame") ∧
    isFrameType (.jstr "frame") = true ∧
    (frameMsg emptyFramePayload).getKey "payload" = some emptyFramePayload ∧
    process_frame testCodec .circle app_config emptyFramePayload =
      .error "Failed to decode image" ∧
    websocket_endpoint testCodec .circle app_config
        [some (frameMsg emptyFramePayload), some (frameMsg goodFramePayload)] =
      [.errorMsg "Failed to decode image"] :=
  ⟨rfl, rfl, rfl, rfl,
    ws_error_reported_then_loop_ends testCodec .circle app_config
      (frameMsg emptyFramePayload) (.jstr "frame") emptyFramePayload
      [some (frameMsg goodFramePayload)] "Failed to decode image"
      rfl rfl rfl rfl⟩

/-- C8: whenever `process_frame` succeeds, the `avgColor` field of the
`"processed"` response payload is exactly the `avgColor` field of the
request — the input color value is round-tripped unchanged. -/
theorem processed_avgColor_echoes_input (codec : Codec) (drawer : ShapeDrawer)
    (config : AppConfig) (frame_data out : JVal)
    (h : process_frame codec drawer config frame_data = .ok out) :
    out.getKey "avgColor" = frame_data.getKey "avgColor" := by
  unfold process_frame at h
  repeat' split at h
  all_goals try exact Except.noConfusion h
  injection h with h
  subst h
  simp_all [JVal.getKey, List.lookup]

/-- Witness for C8 on a concrete request that processes successfully. -/
theorem processed_avgColor_echoes_input_witness :
    process_frame testCodec .circle app_config goodFramePayload =
      .ok (.jobj [("data", .jstr "data:image/jpeg;base64,enc"),
                  ("avgColor", colorMsg 1 2 3)]) ∧
    (JVal.jobj [("data", .jstr "data:image/jpeg;base64,enc"),
        ("avgColor", colorMsg 1 2 3)]).getKey "avgColor" =
      goodFramePayload.getKey "avgColor" :=
  ⟨rfl,
    processed_avgColor_echoes_input testCodec .circle app_config
      goodFramePayload
      (.jobj [("data", .jstr "data:image/jpeg;base64,enc"),
              ("avgColor", colorMsg 1 2 3)]) rfl⟩

/-- Helper: closed form of the 100×100 end-to-end rectangle draw.  With
`size_factor = 0.3` the extents are `int(100 * 0.3) = 30` and the corner
is `(100 - 30) // 2 = 35`, so `cv2.rectangle` fills columns and rows 35
through 65 inclusive; everything else stays black. -/
theorem c3Image_pix (px py : Nat) :
    c3Image.pix px py =
      if 35 ≤ px ∧ px ≤ 65 ∧ 35 ≤ py ∧ py ≤ 65 then (10, 20, 30)
      else (0, 0, 0) := by
  have h30 : pyInt ((((100 : Nat) : ℚ)) * (3 / 10)) = 30 := by
    norm_num [pyInt]
  have h35 : pyFloorDiv ((((100 : Nat) : Int)) - 30) 2 = 35 := by decide
  simp only [c3Image, rectangleDraw, blackBuffer, cvRectangle, Image.inBounds]
  rw [h30, h35]
  have hiff : ((px < 100 ∧ py < 100) ∧
        min (35 : Int) (35 + 30) ≤ (px : Int) ∧
        (px : Int) ≤ max (35 : Int) (35 + 30) ∧
        min (35 : Int) (35 + 30) ≤ (py : Int) ∧
        (py : Int) ≤ max (35 : Int) (35 + 30)) ↔
      (35 ≤ px ∧ px ≤ 65 ∧ 35 ≤ py ∧ py ≤ 65) := by
    rw [show min (35 : Int) (35 + 30) = 35 from by norm_num,
      show max (35 : Int) (35 + 30) = 65 from by norm_num]
    constructor <;> intro hcond <;> omega
  exact if_congr hiff rfl rfl

/-- C3 (amended): processing the 100×100 all-black buffer with the
Rectangle drawer, sizeFraction 0.3 and color `(10, 20, 30)` fills exactly
the 31×31 pixel block spanning (35,35) to (65,65) *inclusive* (OpenCV's
filled rectangle includes both corner rows/columns), and every pixel
outside that block is unchanged (still black). -/
theorem rectangle_overlay_region (px py : Nat) :
    c3Image.pix px py =
      if 35 ≤ px ∧ px ≤ 65 ∧ 35 ≤ py ∧ py ≤ 65 then (10, 20, 30)
      else (0, 0, 0) :=
  c3Image_pix px py

/-- C3 counterexample: the filled region is not 30×30 — row 35 contains 31
filled pixels (columns 35..65 inclusive), and the corner pixel (65,65) is
itself filled. -/
theorem rectangle_region_not_30_counterexample :
    c3Image.pix 65 65 = (10, 20, 30) ∧
    ((List.range 100).countP fun px =>
        decide (c3Image.pix px 35 = ((10 : Int), (20 : Int), (30 : Int)))) =
      31 := by
  constructor
  · rw [c3Image_pix]
    norm_num
  · rw [List.countP_congr (q := fun px => decide (35 ≤ px ∧ px ≤ 65)) ?_]
    · decide
    · intro px _
      rw [c3Image_pix]
      by_cases h : 35 ≤ px ∧ px ≤ 65
      · rw [if_pos ⟨h.1, h.2, by norm_num, by norm_num⟩]
        simp [h]
      · rw [if_neg fun hcontr => h ⟨hcontr.1, hcontr.2.1⟩]
        simp [h]
        decide
